import Mathlib

/-!
Verification of the potboy photo-booth repository: a shallow embedding of the
frame demultiplexer, the uplink retry loop, the capture orchestration endpoints,
the event broadcast hub, and the server image decoder, with theorems settling
the behavioural claims made about them.

Bytes are modelled as natural numbers, byte strings as `List Nat`.  Wall-clock
times are modelled as rationals.  Stateful Python code is modelled as explicit
state passing; side effects are recorded as action traces.
-/

namespace Potboy

/-! ## FrameDemuxer (src/Client/008_main_client.py, generate_mjpeg_stream)

The Python loop keeps a byte accumulator `buffer`; per chunk read it appends
the chunk, then computes `start = buffer.find(b"\xff\xd8")` and
`end = buffer.find(b"\xff\xd9")`, and if `start != -1 and end != -1 and
end > start` it yields `buffer[start:end+2]` and keeps `buffer[end+2:]`. -/

/-- Does `pat` occur in `b` starting at index `i`?  Models a substring match
of Python `bytes.find` at one position. -/
def matchAt (pat b : List Nat) (i : Nat) : Bool :=
  decide ((b.drop i).take pat.length = pat)

/-- Scan `b` for `pat` starting at index `i`, with `fuel` positions left to
try.  Returns the first matching index, scanning left to right. -/
def findSubFrom (pat b : List Nat) : Nat → Nat → Option Nat
  | 0, _ => none
  | fuel + 1, i => if matchAt pat b i then some i else findSubFrom pat b fuel (i + 1)

/-- Models Python `buffer.find(pat)`: index of the first occurrence of `pat`
in `b`, or `none` where Python returns `-1`. -/
def findSub (pat b : List Nat) : Option Nat :=
  findSubFrom pat b (b.length + 1) 0

/-- The JPEG start-of-image marker bytes `\xff\xd8`. -/
def SOI : List Nat := [255, 216]

/-- The JPEG end-of-image marker bytes `\xff\xd9`. -/
def EOI : List Nat := [255, 217]

/-- One iteration of the demux loop body on the accumulated `buffer` after a
new `chunk` arrived: returns the new buffer and the frame yielded, if any.
Mirrors lines 231-239 of 008_main_client.py exactly, including that both
`find` calls scan the whole buffer from position 0. -/
def demuxStep (buffer chunk : List Nat) : List Nat × Option (List Nat) :=
  let b := buffer ++ chunk
  match findSub SOI b, findSub EOI b with
  | some s, some e =>
      if s < e then (b.drop (e + 2), some ((b.drop s).take (e + 2 - s)))
      else (b, none)
  | _, _ => (b, none)

/-- Run the demux loop over a list of chunks (the successive results of
`stream_process.stdout.read(4096)`), from a given accumulator, returning the
emitted frames in order together with the final accumulator.  An empty chunk
models end of stream (`if not chunk: break`). -/
def demuxGoFull : List Nat → List (List Nat) → List (List Nat) × List Nat
  | buffer, [] => ([], buffer)
  | buffer, c :: cs =>
      if c = [] then ([], buffer)
      else
        match demuxStep buffer c with
        | (buf, some f) =>
            let r := demuxGoFull buf cs
            (f :: r.1, r.2)
        | (buf, none) => demuxGoFull buf cs

/-- The frames emitted by the demux loop on a chunk sequence, starting from an
empty accumulator. -/
def demuxRun (chunks : List (List Nat)) : List (List Nat) :=
  (demuxGoFull [] chunks).1

/-! ## UplinkChannel retry loop (src/Client/007_arducam_qr_system.py, ws_send_image)

The Python loop is `attempt = 0; while True:` with the body attempting a full
connect-send-receive cycle; on exception it runs `attempt += 1`, then
`if WS_MAX_RETRIES and attempt >= WS_MAX_RETRIES: return None`, else
`await asyncio.sleep(WS_RETRY_DELAY)` and loops.  `WS_MAX_RETRIES` is either
`None` (documented as infinite retries) or an integer; Python truthiness makes
both `None` and `0` falsy in the give-up test. -/

/-- Python truthiness of the `WS_MAX_RETRIES` configuration value: `None` and
`0` are falsy, every positive integer is truthy. -/
def pyTruthy : Option Nat → Bool
  | none => false
  | some k => k != 0

/-- Observable events of the uplink retry loop: a connect-send-receive
attempt, and a sleep of `WS_RETRY_DELAY` seconds between attempts. -/
inductive UplinkEv
  | connectAttempt
  | delaySleep
deriving DecidableEq, Repr

/-- The `ws_send_image` loop under an always-failing connection, starting from
attempt counter `attempt`, unrolled for `fuel` iterations.  Returns the trace
of attempts and inter-attempt sleeps, and whether the loop gave up (returned
`None`) within the given fuel.  Each iteration performs one failing attempt,
increments the counter, gives up when `pyTruthy maxRetries` holds and the
counter has reached the budget, and otherwise sleeps and retries. -/
def wsSendAllFail (maxRetries : Option Nat) : Nat → Nat → List UplinkEv × Bool
  | 0, _ => ([], false)
  | fuel + 1, attempt =>
      let a := attempt + 1
      if pyTruthy maxRetries && decide (maxRetries.getD 0 ≤ a) then
        ([UplinkEv.connectAttempt], true)
      else
        let r := wsSendAllFail maxRetries fuel a
        (UplinkEv.connectAttempt :: UplinkEv.delaySleep :: r.1, r.2)

/-- The expected trace of `k` connect attempts separated by single sleeps:
attempt, sleep, attempt, sleep, ..., attempt. -/
def retryTrace : Nat → List UplinkEv
  | 0 => []
  | 1 => [UplinkEv.connectAttempt]
  | n + 2 => UplinkEv.connectAttempt :: UplinkEv.delaySleep :: retryTrace (n + 1)

/-! ## Capture endpoint and cooldown (src/Client/007_arducam_qr_system.py)

The `/capture` Flask handler checks the `capture_triggered` flag, then the
cooldown window, then sets the flag, runs `do_capture`, updates
`last_capture_time` only when `do_capture` returned `True`, and clears the
flag in a `finally` block.  `do_capture` captures an image, sends it over the
uplink, and on receiving a receipt calls `print_image` (whose return value is
ignored) and returns `True`; when the uplink returns `None` it returns
`False` without printing. -/

/-- Python `int()` applied to a rational: truncation toward zero. -/
def pyInt (q : ℚ) : ℤ :=
  if 0 ≤ q then ⌊q⌋ else ⌈q⌉

/-- The configured cooldown `CAPTURE_COOLDOWN = 5` seconds. -/
def CAPTURE_COOLDOWN : ℚ := 5

/-- Abstract outcomes of the external steps of one `do_capture` run: whether
the camera capture (face check included) succeeds, whether the uplink round
trip returns a receipt, and whether `print_image` succeeds. -/
structure DoCaptureEnv where
  captureOk : Bool
  uplinkOk : Bool
  printOk : Bool
deriving DecidableEq, Repr

/-- The `do_capture` function of 007_arducam_qr_system.py, reduced to its
control flow over the abstract step outcomes.  Returns its boolean result and
whether `print_image` was invoked.  The code calls `print_image(receipt)` and
returns `True` whenever a receipt was obtained, ignoring the print result;
when the uplink returns `None` it returns `False` without printing. -/
def do_capture (env : DoCaptureEnv) : Bool × Bool :=
  if !env.captureOk then (false, false)
  else if env.uplinkOk then (true, true)
  else (false, false)

/-- Responses of the 007 `/capture` endpoint. -/
inductive CaptureResp
  | busy
  | cooldown (remaining : ℤ)
  | success
  | failed
deriving DecidableEq, Repr

/-- The mutable global state read and written by the 007 `/capture` endpoint. -/
structure CamState where
  capture_triggered : Bool
  last_capture_time : ℚ
deriving DecidableEq, Repr

/-- Everything observable about one call of the 007 `/capture` endpoint: the
HTTP response, the state afterwards, whether `do_capture` ran, and whether
`print_image` was invoked. -/
structure CaptureOutcome where
  resp : CaptureResp
  state : CamState
  ran : Bool
  printed : Bool
deriving DecidableEq, Repr

/-- The 007 `/capture` endpoint (lines 581-602).  `now` is the value of
`time.time()` at the cooldown check (the code calls it twice within the same
conditional; modelled as one instant) and `tEnd` its value at the
`last_capture_time = time.time()` update after a successful run.  The
`finally` block clears `capture_triggered` on every path through the run. -/
def capture_endpoint_007 (st : CamState) (now tEnd : ℚ) (env : DoCaptureEnv) :
    CaptureOutcome :=
  if st.capture_triggered then ⟨CaptureResp.busy, st, false, false⟩
  else if now - st.last_capture_time < CAPTURE_COOLDOWN then
    ⟨CaptureResp.cooldown (pyInt (CAPTURE_COOLDOWN - (now - st.last_capture_time))),
      st, false, false⟩
  else
    let r := do_capture env
    if r.1 then
      ⟨CaptureResp.success, ⟨false, tEnd⟩, true, r.2⟩
    else
      ⟨CaptureResp.failed, ⟨false, st.last_capture_time⟩, true, r.2⟩

/-! ## Capture flow and busy guard (src/Client/008_main_client.py)

`do_capture_flow` guards on `capture_in_progress`, sets it, stops the preview
stream process when running under rpicam, runs the countdown, captures, sends
to the server, prints, and clears the flag in a `finally` block.  The
`/capture` Flask handler rejects with HTTP 429 when the flag is set and
otherwise starts the flow on a background thread. -/

/-- Status events of the JSON wire shape sent to the server
(`ws_callback` messages in `blink_countdown` and the shapes handled by
main_server2.py). -/
inductive ClientEvent
  | countdown (n : Nat)
  | captureStart
  | captureDone
  | printDone
  | errorEv
deriving DecidableEq, Repr

/-- The configured countdown length `COUNTDOWN_SECONDS = 5`. -/
def COUNTDOWN_SECONDS : Nat := 5

/-- The status events published by `blink_countdown seconds ws_callback`
(lines 144-174): when a callback is supplied, one
`{type: countdown, value: i}` message per tick for `i = seconds, ..., 1`;
when `ws_callback` is `None` (the default), none. -/
def blink_countdown_events (seconds : Nat) (hasCallback : Bool) : List ClientEvent :=
  if hasCallback then
    (List.range seconds).reverse.map (fun i => ClientEvent.countdown (i + 1))
  else []

/-- Side-effecting steps of `do_capture_flow`, in the order the code performs
them.  The constructors cover every call in the function body that touches
shared state or the outside world; the function contains no call that
restarts the preview stream. -/
inductive FlowAct
  | setInProgress (b : Bool)
  | stopStream
  | countdown
  | captureImg
  | uplinkSend
  | printReceipt
deriving DecidableEq, Repr

/-- The mutable globals of 008_main_client.py touched by the capture flow:
the in-progress flag, the `preview_active` flag, and whether an rpicam-vid
stream process is alive (`stream_process is not None`). -/
structure ClientSt where
  capture_in_progress : Bool
  preview_active : Bool
  stream_process : Bool
deriving DecidableEq, Repr

/-- Abstract outcomes of the external steps of one `do_capture_flow` run. -/
structure FlowEnv where
  captureOk : Bool
  receiptOk : Bool
  printOk : Bool
deriving DecidableEq, Repr

/-- Everything observable about one `do_capture_flow` call: the returned
`(success, message)` pair, the trace of side-effecting steps, the status
events published to the server, and the final state of the globals. -/
structure FlowResult where
  success : Bool
  message : String
  acts : List FlowAct
  events : List ClientEvent
  final : ClientSt
deriving DecidableEq, Repr

/-- The `do_capture_flow` function (lines 434-471).  If the in-progress flag
is set it returns immediately; otherwise it sets the flag, stops the stream
process when `USE_RPICAM` holds and one is running, calls
`blink_countdown(COUNTDOWN_SECONDS)` with no `ws_callback`, captures, sends,
prints, and clears the flag in the `finally` block on every path.  The
comment at the end of the function notes that the preview must be restarted
by the user; no step restarts the stream process or publishes a
capture-start event. -/
def do_capture_flow (useRpicam : Bool) (env : FlowEnv) (st : ClientSt) : FlowResult :=
  if st.capture_in_progress then
    ⟨false, "Capture already in progress", [], [], st⟩
  else
    let stopStream := useRpicam && st.stream_process
    let st1 : ClientSt := ⟨true, st.preview_active, !stopStream && st.stream_process⟩
    let pre := FlowAct.setInProgress true ::
      (if stopStream then [FlowAct.stopStream] else []) ++
      [FlowAct.countdown]
    let ev := blink_countdown_events COUNTDOWN_SECONDS false
    let stF : ClientSt := ⟨false, st1.preview_active, st1.stream_process⟩
    if !env.captureOk then
      ⟨false, "Capture failed",
        pre ++ [FlowAct.captureImg, FlowAct.setInProgress false], ev, stF⟩
    else if !env.receiptOk then
      ⟨false, "Failed to get receipt from server",
        pre ++ [FlowAct.captureImg, FlowAct.uplinkSend, FlowAct.setInProgress false],
        ev, stF⟩
    else if !env.printOk then
      ⟨false, "Print failed",
        pre ++ [FlowAct.captureImg, FlowAct.uplinkSend, FlowAct.printReceipt,
          FlowAct.setInProgress false], ev, stF⟩
    else
      ⟨true, "Captured and printed!",
        pre ++ [FlowAct.captureImg, FlowAct.uplinkSend, FlowAct.printReceipt,
          FlowAct.setInProgress false], ev, stF⟩

/-- Responses of the 008 `/capture` Flask endpoint. -/
inductive HttpResp008
  | busyError
  | accepted
deriving DecidableEq, Repr

/-- The 008 `/capture` endpoint (lines 517-534): reject with HTTP 429 when
`capture_in_progress` is set, else start the capture flow on a background
thread.  The boolean records whether the background thread was started. -/
def capture_endpoint_008 (st : ClientSt) : HttpResp008 × Bool :=
  if st.capture_in_progress then (HttpResp008.busyError, false)
  else (HttpResp008.accepted, true)

/-- The flag values written to `capture_in_progress` by a trace of flow
steps, in order. -/
def flagWrites (acts : List FlowAct) : List Bool :=
  acts.filterMap (fun a =>
    match a with
    | FlowAct.setInProgress b => some b
    | _ => none)

/-! ## EventBroadcastHub (src/Server/main_server2.py)

`broadcast_to_browsers` serialises the event and runs
`asyncio.gather(*[ws.send(message) for ws in connected_browsers],
return_exceptions=True)`: every send is attempted, exceptions are collected
rather than propagated, and the `connected_browsers` set is not modified.
Removal of a browser happens only in the `finally` block of its own
`browser_websocket_handler`, which runs `connected_browsers.discard(ws)` when
the connection handler ends. -/

/-- An observer in the broadcast set: an identifier paired with whether its
`ws.send` succeeds. -/
abbrev Observer := Nat × Bool

/-- The `broadcast_to_browsers` step: given the current observer set (as a
list) it returns the identifiers that received the message (those whose send
did not raise) and the observer set after the publish step, which the code
leaves unchanged. -/
def broadcast_to_browsers (observers : List Observer) : List Nat × List Observer :=
  if observers.isEmpty then ([], observers)
  else ((observers.filter (fun o => o.2)).map (fun o => o.1), observers)

/-- The `finally` block of `browser_websocket_handler`: discard one observer
from the membership set when its own connection handler terminates. -/
def browser_handler_cleanup (observers : List Observer) (w : Nat) : List Observer :=
  observers.filter (fun o => o.1 != w)

/-! ## Image decoder (src/Server/main_server.py, is_valid_image / decode_image_data)

`is_valid_image` checks a minimum length of 8 and then the JPEG, PNG or GIF
magic prefixes.  `decode_image_data` base64-decodes string payloads and
validates the result; bytes payloads that already carry a magic prefix are
returned unchanged, and only otherwise is a base64 decode attempted. -/

/-- The value of a byte in the standard base64 alphabet, `none` for bytes
outside it. -/
def b64Val (c : Nat) : Option Nat :=
  if 65 ≤ c ∧ c ≤ 90 then some (c - 65)
  else if 97 ≤ c ∧ c ≤ 122 then some (c - 97 + 26)
  else if 48 ≤ c ∧ c ≤ 57 then some (c - 48 + 52)
  else if c = 43 then some 62
  else if c = 47 then some 63
  else none

/-- Decode a list of 6-bit values into bytes, 4 values to 3 bytes, with the
usual truncated final group. -/
def b64DecodeVals : List Nat → List Nat
  | a :: b :: c :: d :: rest =>
      (a * 4 + b / 16) :: ((b % 16) * 16 + c / 4) :: ((c % 4) * 64 + d) ::
        b64DecodeVals rest
  | [a, b, c] => [a * 4 + b / 16, (b % 16) * 16 + c / 4]
  | [a, b] => [a * 4 + b / 16]
  | _ => []

/-- Models `base64.b64decode` with default validation: bytes outside the
alphabet and the padding are discarded, the padded length must be a multiple
of four and the number of data characters must not be one more than a
multiple of four, else the call raises (`none`). -/
def pyB64decode (s : List Nat) : Option (List Nat) :=
  let ds := s.filter (fun c => (b64Val c).isSome)
  let pads := (s.filter (fun c => c = 61)).length
  if (ds.length + pads) % 4 ≠ 0 ∨ ds.length % 4 = 1 then none
  else some (b64DecodeVals (ds.map (fun c => (b64Val c).getD 0)))

/-- The `is_valid_image` check (lines 57-66): at least 8 bytes and a JPEG
(`\xff\xd8\xff`), PNG, or `GIF8` magic prefix. -/
def is_valid_image (data : List Nat) : Bool :=
  if data.length < 8 then false
  else if data.take 3 = [255, 216, 255] then true
  else if data.take 8 = [137, 80, 78, 71, 13, 10, 26, 10] then true
  else if data.take 4 = [71, 73, 70, 56] then true
  else false

/-- A websocket payload: Python distinguishes `str` and `bytes` messages. -/
inductive PyData
  | str (s : List Nat)
  | bytes (b : List Nat)
deriving DecidableEq, Repr

/-- The `decode_image_data` function (lines 69-89), instrumented with whether
a base64 decode was attempted.  String payloads are base64-decoded and
validated; bytes payloads that already pass `is_valid_image` are returned
unchanged without any decode, and only otherwise is a base64 decode tried. -/
def decode_image_data : PyData → Option (List Nat) × Bool
  | PyData.str s =>
      match pyB64decode s with
      | some d => if is_valid_image d then (some d, true) else (none, true)
      | none => (none, true)
  | PyData.bytes b =>
      if is_valid_image b then (some b, false)
      else
        match pyB64decode b with
        | some d => if is_valid_image d then (some d, true) else (none, true)
        | none => (none, true)

/-! ## Helper lemmas -/

/-- A successful bounded scan returns a position at or after the start that
matches, and no position between the start and it matches. -/
theorem findSubFrom_spec (pat b : List Nat) :
    ∀ fuel i j, findSubFrom pat b fuel i = some j →
      i ≤ j ∧ matchAt pat b j = true ∧
        ∀ k, i ≤ k → k < j → matchAt pat b k = false := by
  intro fuel
  induction fuel with
  | zero => intro i j h; simp [findSubFrom] at h
  | succ fuel ih =>
    intro i j h
    unfold findSubFrom at h
    by_cases hm : matchAt pat b i = true
    · rw [if_pos hm] at h
      cases h
      exact ⟨Nat.le_refl _, hm, fun k hk1 hk2 => absurd (Nat.lt_of_le_of_lt hk1 hk2)
        (Nat.lt_irrefl _)⟩
    · rw [if_neg hm] at h
      obtain ⟨h1, h2, h3⟩ := ih (i + 1) j h
      refine ⟨Nat.le_trans (Nat.le_succ i) h1, h2, ?_⟩
      intro k hk1 hk2
      rcases Nat.eq_or_lt_of_le hk1 with rfl | hlt
      · exact Bool.eq_false_iff.mpr hm
      · exact h3 k hlt hk2

/-- Correctness of the model of `bytes.find`: a returned index matches the
pattern and is the first index that does. -/
theorem findSub_spec (pat b : List Nat) (j : Nat) (h : findSub pat b = some j) :
    matchAt pat b j = true ∧ ∀ k, k < j → matchAt pat b k = false := by
  obtain ⟨_, h2, h3⟩ := findSubFrom_spec pat b (b.length + 1) 0 j h
  exact ⟨h2, fun k hk => h3 k (Nat.zero_le k) hk⟩

/-- The demux loop emits at most one frame per processed chunk. -/
theorem demuxGoFull_length (cs : List (List Nat)) :
    ∀ buffer, ((demuxGoFull buffer cs).1).length ≤ cs.length := by
  induction cs with
  | nil => intro buffer; simp [demuxGoFull]
  | cons c cs ih =>
    intro buffer
    by_cases hc : c = []
    · simp [demuxGoFull, hc]
    · rcases h : demuxStep buffer c with ⟨buf, f⟩
      cases f with
      | none =>
        simp only [demuxGoFull, if_neg hc, h]
        exact Nat.le_trans (ih buf) (Nat.le_succ _)
      | some f =>
        simp only [demuxGoFull, if_neg hc, h, List.length_cons]
        exact Nat.succ_le_succ (ih buf)

/-! ## Claim theorems -/

/-- C1 (counterexample): feeding two complete JPEG frames as one single chunk
yields only one frame, while feeding them as two chunks yields both, so the
emitted frame sequence is not invariant under re-chunking and a chunk holding
several complete marker pairs does not yield all of them. -/
theorem demux_chunking_counterexample :
    demuxRun [[255, 216, 255, 217, 255, 216, 255, 217]] = [[255, 216, 255, 217]] ∧
    demuxRun [[255, 216, 255, 217], [255, 216, 255, 217]] =
      [[255, 216, 255, 217], [255, 216, 255, 217]] ∧
    demuxRun [[255, 216, 255, 217, 255, 216, 255, 217]] ≠
      demuxRun [[255, 216, 255, 217], [255, 216, 255, 217]] := by
  decide

/-- C1 (amended): the demux loop checks for a marker pair once per chunk read
and yields at most one frame there, so the number of emitted frames never
exceeds the number of chunks; in particular a single chunk yields at most one
frame no matter how many complete marker pairs it contains, and the emitted
sequence depends on how the byte stream is split into chunks. -/
theorem demux_at_most_one_frame_per_chunk (chunks : List (List Nat)) :
    (demuxRun chunks).length ≤ chunks.length :=
  demuxGoFull_length chunks []

/-- C2 (counterexample): on a stream whose leading garbage contains an
end-of-image marker (here the two garbage bytes `ff d9`) followed by four
complete frames, the demuxer emits nothing and retains every byte, garbage
included, in the accumulator forever: the first `find` hit for `ff d9`
precedes the first `ff d8`, so the `end > start` guard never fires again. -/
theorem demux_garbage_retained_counterexample :
    demuxGoFull []
        [[255, 217, 255, 216, 255, 217], [255, 216, 255, 217],
          [255, 216, 255, 217], [255, 216, 255, 217]] =
      ([], [255, 217, 255, 216, 255, 217, 255, 216, 255, 217, 255, 216, 255, 217,
        255, 216, 255, 217]) := by
  decide

/-- C2 (amended): whenever the demux step emits a frame, the frame consists
exactly of the accumulated bytes from the first start-of-image marker through
the first end-of-image marker, both markers included, and every byte before
that end marker (the pre-marker garbage included) is discarded from the
accumulator; but when the first end-of-image occurrence in the accumulator
precedes the first start-of-image occurrence, the step emits nothing and
retains all accumulated bytes, so leading garbage containing an end marker is
buffered indefinitely. -/
theorem demux_frame_exact_markers :
    (∀ buffer chunk buf f, demuxStep buffer chunk = (buf, some f) →
      ∃ s e, matchAt SOI (buffer ++ chunk) s = true ∧
        (∀ j, j < s → matchAt SOI (buffer ++ chunk) j = false) ∧
        matchAt EOI (buffer ++ chunk) e = true ∧
        (∀ j, j < e → matchAt EOI (buffer ++ chunk) j = false) ∧
        s < e ∧
        f = ((buffer ++ chunk).drop s).take (e + 2 - s) ∧
        buf = (buffer ++ chunk).drop (e + 2)) ∧
    (∀ buffer chunk s e, findSub SOI (buffer ++ chunk) = some s →
      findSub EOI (buffer ++ chunk) = some e → e ≤ s →
      demuxStep buffer chunk = (buffer ++ chunk, none)) := by
  constructor
  · intro buffer chunk buf f h
    simp only [demuxStep] at h
    rcases hs : findSub SOI (buffer ++ chunk) with _ | s <;> rw [hs] at h
    · rcases he : findSub EOI (buffer ++ chunk) with _ | e <;> rw [he] at h <;>
        simp at h
    · rcases he : findSub EOI (buffer ++ chunk) with _ | e <;> rw [he] at h
      · simp at h
      · dsimp only at h
        by_cases hlt : s < e
        · rw [if_pos hlt] at h
          obtain ⟨hs1, hs2⟩ := findSub_spec _ _ _ hs
          obtain ⟨he1, he2⟩ := findSub_spec _ _ _ he
          obtain ⟨h1, h2⟩ := Prod.mk.injEq .. ▸ h
          exact ⟨s, e, hs1, hs2, he1, he2, hlt, (Option.some.inj h2).symm, h1.symm⟩
        · rw [if_neg hlt] at h
          simp at h
  · intro buffer chunk s e hs he hle
    simp only [demuxStep]
    rw [hs, he]
    dsimp only
    rw [if_neg (Nat.not_lt.mpr hle)]

/-- C2 (witness): the stall branch of the theorem at a concrete input whose
first end marker (index 0) precedes its first start marker (index 2). -/
theorem demux_frame_exact_markers_witness :
    demuxStep [] [255, 217, 255, 216] = ([255, 217, 255, 216], none) :=
  demux_frame_exact_markers.2 [] [255, 217, 255, 216] 2 0 (by decide) (by decide)
    (by decide)

/-- Helper for the uplink retry theorem: starting from attempt counter `a`
with budget `a + d` for positive `d` and at least `d` iterations of fuel, the
always-failing loop performs exactly `d` further attempts separated by single
sleeps and then gives up. -/
theorem wsSendAllFail_count :
    ∀ d, 1 ≤ d → ∀ fuel a, d ≤ fuel →
      wsSendAllFail (some (a + d)) fuel a = (retryTrace d, true) := by
  intro d
  induction d with
  | zero => intro h; exact absurd h (by omega)
  | succ d ih =>
    intro _ fuel a hf
    cases fuel with
    | zero => exact absurd hf (by omega)
    | succ fuel =>
      unfold wsSendAllFail
      cases d with
      | zero =>
        rw [if_pos (by simp [pyTruthy])]
        rfl
      | succ d =>
        rw [if_neg (by simp [pyTruthy]; try omega)]
        have harg : a + (d + 1 + 1) = (a + 1) + (d + 1) := by omega
        rw [harg, ih (by omega) fuel (a + 1) (by omega)]
        rfl

/-- C3 (counterexample): with the attempt budget configured as the finite
value 0, the loop never gives up: `0` is falsy in the Python guard
`if WS_MAX_RETRIES and attempt >= WS_MAX_RETRIES`, so after 7 iterations it
has made 7 attempts (not 0) and still not raised the exhaustion failure,
contradicting the claim at budget K = 0. -/
theorem uplink_budget_zero_counterexample :
    wsSendAllFail (some 0) 7 0 =
      ([UplinkEv.connectAttempt, UplinkEv.delaySleep, UplinkEv.connectAttempt,
        UplinkEv.delaySleep, UplinkEv.connectAttempt, UplinkEv.delaySleep,
        UplinkEv.connectAttempt, UplinkEv.delaySleep, UplinkEv.connectAttempt,
        UplinkEv.delaySleep, UplinkEv.connectAttempt, UplinkEv.delaySleep,
        UplinkEv.connectAttempt, UplinkEv.delaySleep], false) := by
  decide

/-- C3 (amended): for every positive finite attempt budget K and an
always-failing connection, the uplink send loop makes exactly K
connect-send-receive attempts with exactly one configured delay between
consecutive attempts, and then gives up returning no receipt; with the budget
configured as None the loop never gives up however long it runs (and the same
holds for a configured budget of 0, which the Python truthiness test treats
like None). -/
theorem uplink_exhausts_budget :
    (∀ K fuel, 1 ≤ K → K ≤ fuel →
      wsSendAllFail (some K) fuel 0 = (retryTrace K, true)) ∧
    (∀ fuel a, (wsSendAllFail none fuel a).2 = false) := by
  constructor
  · intro K fuel h1 h2
    have := wsSendAllFail_count K h1 fuel 0 h2
    simpa using this
  · intro fuel
    induction fuel with
    | zero => intro a; rfl
    | succ fuel ih =>
      intro a
      unfold wsSendAllFail
      rw [if_neg (by simp [pyTruthy])]
      exact ih (a + 1)

/-- C3 (witness): budget 3, fuel 5: exactly three attempts with two sleeps in
between, then the loop gives up. -/
theorem uplink_exhausts_budget_witness :
    wsSendAllFail (some 3) 5 0 =
      ([UplinkEv.connectAttempt, UplinkEv.delaySleep, UplinkEv.connectAttempt,
        UplinkEv.delaySleep, UplinkEv.connectAttempt], true) :=
  uplink_exhausts_budget.1 3 5 (by omega) (by omega)

/-- C4: in a capture run that is not rejected as busy or by the cooldown, the
last-capture timestamp is set to the current time exactly when the uplink
round trip of the run succeeded (a receipt was obtained after a successful
camera capture) and is left unchanged otherwise; when the uplink exhausts its
attempts and returns no receipt the run fails without ever invoking the
printer and the timestamp stays unchanged, while a failing print step after a
successful round trip still updates the timestamp, because `do_capture`
ignores the result of `print_image`. -/
theorem cooldown_updated_iff_uplink_success :
    ∀ st now tEnd env, st.capture_triggered = false →
      CAPTURE_COOLDOWN ≤ now - st.last_capture_time →
      ((capture_endpoint_007 st now tEnd env).state.last_capture_time =
        if env.captureOk && env.uplinkOk then tEnd else st.last_capture_time) ∧
      (env.captureOk = true → env.uplinkOk = false →
        (capture_endpoint_007 st now tEnd env).printed = false ∧
        (capture_endpoint_007 st now tEnd env).resp = CaptureResp.failed ∧
        (capture_endpoint_007 st now tEnd env).state.last_capture_time =
          st.last_capture_time) ∧
      (env.captureOk = true → env.uplinkOk = true → env.printOk = false →
        (capture_endpoint_007 st now tEnd env).printed = true ∧
        (capture_endpoint_007 st now tEnd env).state.last_capture_time = tEnd) := by
  intro st now tEnd env h1 h2
  rcases env with ⟨co, uo, po⟩
  cases co <;> cases uo <;>
    simp [capture_endpoint_007, h1, not_lt.mpr h2, do_capture]

/-- C4 (witness): with capture and uplink succeeding but the print step
failing, the timestamp is still updated to the end-of-run time and the
printer was invoked. -/
theorem cooldown_updated_iff_uplink_success_witness :
    (capture_endpoint_007 ⟨false, 0⟩ 7 9 ⟨true, true, false⟩).state.last_capture_time
        = 9 ∧
    (capture_endpoint_007 ⟨false, 0⟩ 7 9 ⟨true, true, false⟩).printed = true := by
  have h := cooldown_updated_iff_uplink_success ⟨false, 0⟩ 7 9 ⟨true, true, false⟩ rfl
    (by norm_num [CAPTURE_COOLDOWN])
  exact ⟨(h.2.2 rfl rfl rfl).2, (h.2.2 rfl rfl rfl).1⟩

/-- C5: a capture trigger arriving while the in-progress flag is set is
rejected with the busy error (HTTP 429) and starts no background run, and a
`do_capture_flow` call entered with the flag set returns the busy message
without performing any step or changing state; a run entered with the flag
clear writes the flag exactly twice — `True` as its first step and `False` as
its last step, through the `finally` block — on the success path and on every
failure path, ending with the flag clear. -/
theorem busy_flag_guard :
    (∀ st, st.capture_in_progress = true →
      capture_endpoint_008 st = (HttpResp008.busyError, false) ∧
      ∀ useR env, do_capture_flow useR env st =
        ⟨false, "Capture already in progress", [], [], st⟩) ∧
    (∀ st useR env, st.capture_in_progress = false →
      flagWrites (do_capture_flow useR env st).acts = [true, false] ∧
      (do_capture_flow useR env st).acts.head? = some (FlowAct.setInProgress true) ∧
      (do_capture_flow useR env st).acts.getLast? =
        some (FlowAct.setInProgress false) ∧
      (do_capture_flow useR env st).final.capture_in_progress = false) := by
  constructor
  · intro st h
    constructor
    · simp [capture_endpoint_008, h]
    · intro useR env
      simp [do_capture_flow, h]
  · intro st useR env h
    rcases st with ⟨cip, pa, sp⟩
    rcases env with ⟨co, ro, po⟩
    cases cip with
    | true => exact absurd h (by simp)
    | false =>
      cases useR <;> cases pa <;> cases sp <;> cases co <;> cases ro <;> cases po <;>
        decide

/-- C5 (witness): the busy branch of the theorem at a concrete state with the
flag set. -/
theorem busy_flag_guard_witness :
    capture_endpoint_008 ⟨true, false, false⟩ = (HttpResp008.busyError, false) :=
  (busy_flag_guard.1 ⟨true, false, false⟩ rfl).1

/-- C6: a trigger arriving with no capture in progress and strictly less than
`CAPTURE_COOLDOWN` seconds elapsed since the last successful capture is
rejected with the cooldown error carrying the remaining time
`CAPTURE_COOLDOWN - elapsed` rounded down to whole seconds, the state is
unchanged and no run starts; a trigger arriving with at least the cooldown
elapsed is never rejected for cooldown. -/
theorem cooldown_rejection :
    ∀ st now tEnd env, st.capture_triggered = false →
      (now - st.last_capture_time < CAPTURE_COOLDOWN →
        capture_endpoint_007 st now tEnd env =
          ⟨CaptureResp.cooldown ⌊CAPTURE_COOLDOWN - (now - st.last_capture_time)⌋,
            st, false, false⟩) ∧
      (CAPTURE_COOLDOWN ≤ now - st.last_capture_time →
        ∀ r, (capture_endpoint_007 st now tEnd env).resp ≠
          CaptureResp.cooldown r) := by
  intro st now tEnd env h1
  constructor
  · intro h2
    have hq : (0 : ℚ) ≤ CAPTURE_COOLDOWN - (now - st.last_capture_time) := by
      linarith
    simp [capture_endpoint_007, h1, h2, pyInt, hq]
  · intro h2 r
    rcases env with ⟨co, uo, po⟩
    cases co <;> cases uo <;>
      simp [capture_endpoint_007, h1, not_lt.mpr h2, do_capture]

/-- C6 (witness): three seconds after a capture at time 0, the trigger is
rejected with two whole seconds of cooldown remaining. -/
theorem cooldown_rejection_witness :
    (capture_endpoint_007 ⟨false, 0⟩ 3 10 ⟨true, true, true⟩).resp =
      CaptureResp.cooldown 2 := by
  have h := (cooldown_rejection ⟨false, 0⟩ 3 10 ⟨true, true, true⟩ rfl).1
    (by norm_num [CAPTURE_COOLDOWN])
  rw [h]
  norm_num [CAPTURE_COOLDOWN]

/-- C7 (counterexample): publishing to a set holding a failing observer (id 0)
and a healthy observer (id 1) delivers to observer 1 but leaves observer 0 in
the membership set: `broadcast_to_browsers` never mutates the set, so a
failing observer is not removed by the publish step, contrary to the claim. -/
theorem broadcast_no_removal_counterexample :
    broadcast_to_browsers [(0, false), (1, true)] = ([1], [(0, false), (1, true)]) ∧
    (0, false) ∈ (broadcast_to_browsers [(0, false), (1, true)]).2 := by
  decide

/-- C7 (amended): publishing attempts delivery to each subscribed observer
independently (`asyncio.gather` with `return_exceptions=True`, so one failure
aborts no other send) and every observer whose send succeeds receives the
event; but the publish step leaves the membership set unchanged — a failing
observer is removed only later, by the `finally` block of its own connection
handler, which drops exactly that observer and keeps all others. -/
theorem broadcast_best_effort :
    ∀ obs : List Observer,
      (broadcast_to_browsers obs).2 = obs ∧
      (∀ o, o ∈ obs → o.2 = true → o.1 ∈ (broadcast_to_browsers obs).1) ∧
      (∀ w, ((browser_handler_cleanup obs w).all (fun o => o.1 != w) = true ∧
        ∀ o, o ∈ obs → o.1 ≠ w → o ∈ browser_handler_cleanup obs w)) := by
  intro obs
  refine ⟨?_, ?_, ?_⟩
  · unfold broadcast_to_browsers
    split <;> rfl
  · intro o ho h2
    unfold broadcast_to_browsers
    rw [if_neg (by simp [List.isEmpty_iff]; rintro rfl; simp at ho)]
    exact List.mem_map.mpr ⟨o, List.mem_filter.mpr ⟨ho, by simp [h2]⟩, rfl⟩
  · intro w
    constructor
    · rw [List.all_eq_true]
      intro o ho
      exact (List.mem_filter.mp ho).2
    · intro o ho hne
      exact List.mem_filter.mpr ⟨ho, by simpa using hne⟩

/-- C7 (witness): the healthy observer receives the event even though a
failing observer is present in the set. -/
theorem broadcast_best_effort_witness :
    (1 : Nat) ∈ (broadcast_to_browsers [(0, false), (1, true)]).1 :=
  (broadcast_best_effort [(0, false), (1, true)]).2.1 (1, true) (by decide) rfl

/-- C8: a capture run of `do_capture_flow` publishes no status events at all —
in particular neither any `Countdown(n)` nor a `CaptureStart` — for every
state, configuration and outcome, because the flow calls
`blink_countdown(COUNTDOWN_SECONDS)` without passing the `ws_callback`
argument and contains no capture-start message; yet the countdown publisher
the claim describes exists and behaves as claimed when a callback is
supplied, as the second conjunct shows for 5 configured ticks, and the
matching server (`main_server2.py` and its web page) dispatches exactly these
`countdown` and `capture_start` message types, so the dropped callback is a
slip of the call site rather than of the claim. -/
theorem capture_run_publishes_no_events :
    (∀ useR env st, (do_capture_flow useR env st).events = []) ∧
    blink_countdown_events 5 true =
      [ClientEvent.countdown 5, ClientEvent.countdown 4, ClientEvent.countdown 3,
        ClientEvent.countdown 2, ClientEvent.countdown 1] := by
  constructor
  · intro useR env st
    rcases st with ⟨cip, pa, sp⟩
    rcases env with ⟨co, ro, po⟩
    cases useR <;> cases cip <;> cases pa <;> cases sp <;> cases co <;> cases ro <;>
      cases po <;> decide
  · decide

/-- C9 (counterexample): a fully successful capture run from a state with the
preview active and its stream process running performs exactly these steps —
stop the stream process, countdown, capture, uplink, print — and ends with
the stream process still stopped: no step of the trace restarts the stream or
signals the preview to resume, so resuming requires a new external request,
contrary to the claim. -/
theorem preview_not_resumed_counterexample :
    (do_capture_flow true ⟨true, true, true⟩ ⟨false, true, true⟩).acts =
      [FlowAct.setInProgress true, FlowAct.stopStream, FlowAct.countdown,
        FlowAct.captureImg, FlowAct.uplinkSend, FlowAct.printReceipt,
        FlowAct.setInProgress false] ∧
    (do_capture_flow true ⟨true, true, true⟩ ⟨false, true, true⟩).final.stream_process
      = false ∧
    (do_capture_flow true ⟨true, true, true⟩ ⟨false, true, true⟩).final.preview_active
      = true := by
  decide

/-- C9 (amended): when a capture pre-empts an active preview (rpicam in use
and a stream process running), the stream process is stopped before the image
is captured, as claimed; but after the capture completes — on the success
path and on every failure path — the stream process remains stopped and is
never restarted by the run: only the `preview_active` flag survives
untouched, and the stream resumes only when a new external `/stream` request
arrives. -/
theorem preview_paused_not_resumed :
    ∀ env pa,
      FlowAct.stopStream ∈ ((do_capture_flow true env ⟨false, pa, true⟩).acts.takeWhile
        (fun a => a != FlowAct.captureImg)) ∧
      (do_capture_flow true env ⟨false, pa, true⟩).final.stream_process = false ∧
      (do_capture_flow true env ⟨false, pa, true⟩).final.preview_active = pa := by
  intro env pa
  rcases env with ⟨co, ro, po⟩
  cases pa <;> cases co <;> cases ro <;> cases po <;> decide

/-- C10: every bytes payload of length at least 8 carrying a JPEG, PNG or GIF
magic prefix is returned by `decode_image_data` unchanged and without any
base64 decode being attempted — the image pipeline accepts raw binary images
even though the wire contract specifies base64 text — and every string
payload that does not base64-decode to such an image yields `None`. -/
theorem raw_bytes_accepted_strings_validated :
    (∀ b : List Nat, 8 ≤ b.length →
      (b.take 3 = [255, 216, 255] ∨ b.take 8 = [137, 80, 78, 71, 13, 10, 26, 10] ∨
        b.take 4 = [71, 73, 70, 56]) →
      decode_image_data (PyData.bytes b) = (some b, false)) ∧
    (∀ s : List Nat, (∀ d, pyB64decode s = some d → is_valid_image d = false) →
      (decode_image_data (PyData.str s)).1 = none) := by
  constructor
  · intro b hlen hmagic
    have hv : is_valid_image b = true := by
      unfold is_valid_image
      rw [if_neg (by omega)]
      rcases hmagic with h | h | h <;> simp [h]
    simp [decode_image_data, hv]
  · intro s h
    rcases hd : pyB64decode s with _ | d
    · simp [decode_image_data, hd]
    · simp [decode_image_data, hd, h d hd]

/-- C10 (witness): a raw 8-byte JPEG-prefixed payload passes through
unchanged with no base64 decode, and the string payload "!" (which
base64-decodes to the empty byte string, not a valid image) yields `None`. -/
theorem raw_bytes_accepted_strings_validated_witness :
    decode_image_data (PyData.bytes [255, 216, 255, 0, 0, 0, 0, 0]) =
      (some [255, 216, 255, 0, 0, 0, 0, 0], false) ∧
    (decode_image_data (PyData.str [33])).1 = none := by
  constructor
  · exact raw_bytes_accepted_strings_validated.1 _ (by decide) (Or.inl (by decide))
  · refine raw_bytes_accepted_strings_validated.2 [33] ?_
    intro d hd
    have h1 : pyB64decode [33] = some [] := by decide
    rw [h1] at hd
    have h2 : d = [] := (Option.some.inj hd).symm
    rw [h2]
    decide

end Potboy
